import Mathlib

/-!
Verification of the clembench environment/orchestrator core against its
natural-language specification.

Shallow embedding conventions:
- Python dict-shaped state is embedded as Lean structures holding exactly the
  keys the source reads and writes (all of which are created by `reset`).
- Python `raise` is embedded as `Except.error`; a method that contains no
  raise path is a total function (or always returns `Except.ok`).
- Python machine-level details (logging, observation text assembly, image
  rendering) that no claim touches are omitted; every state mutation is kept.
- Grid-object plumbing (`add_object`, `remove_object`, `get_objects_at`) and
  the base `reset` flag initialisation live in the external `clemcore`
  package, absent from this repository's sources; where needed they are
  modelled from the spec and marked `Modelled from the spec:`.
-/

namespace Hello

/-- The 32 ASCII characters of Python `string.punctuation`
(codes 33-47, 58-64, 91-96, 123-126), removed by
`greeting_lower.translate(str.maketrans("", "", string.punctuation))`. -/
def pyPunct : List Char :=
  ([33, 34, 35, 36, 37, 38, 39, 40, 41, 42, 43, 44, 45, 46, 47,
    58, 59, 60, 61, 62, 63, 64,
    91, 92, 93, 94, 95, 96,
    123, 124, 125, 126].map Char.ofNat)

/-- Python `str.lower` on the ASCII strings this game handles. -/
def pyLower (s : List Char) : List Char := s.map Char.toLower

/-- The cleaning pipeline of `_validate_greeting`: lowercase, then delete
every punctuation character. -/
def cleanGreeting (g : List Char) : List Char :=
  (pyLower g).filter (fun c => ¬ pyPunct.contains c)

/-- Python substring containment `needle in hay` for strings. -/
def strContains (hay needle : List Char) : Bool :=
  (List.range (hay.length + 1)).any (fun i => needle.isPrefixOf (hay.drop i))

/-- The keys of `HelloGameEnvironment.state` as written by `reset`. -/
structure HelloState where
  target_name : String
  language : String
  prompt : String
  required_words : List (List Char)
  missing_words : List (List Char)
  success : Bool
  aborted : Bool
  round : Nat
  current_context : List Char
  deriving Repr, DecidableEq

/-- The environment object: its `state` dict plus the `terminated` and
`truncated` flags kept directly on the instance. (`self.info` is write-only
for the claims at hand and is returned by `step` rather than stored.) -/
structure HelloEnv where
  state : HelloState
  terminated : Bool
  truncated : Bool
  deriving Repr, DecidableEq

/-- The configuration keys `reset` reads (each with its default). -/
structure HelloConfig where
  target_name : String := "User"
  language : String := "en"
  prompt : String := ""
  deriving Repr, DecidableEq

/-- Embedding of `HelloGameEnvironment.reset`: rebuilds `state` wholesale from the config,
with `required_words = ["welcome", "hello", target_name.lower()]`, and clears
the `terminated`/`truncated` flags. -/
def helloReset (cfg : HelloConfig) : HelloEnv :=
  { state :=
      { target_name := cfg.target_name
        language := cfg.language
        prompt := cfg.prompt
        required_words :=
          ["welcome".toList, "hello".toList, pyLower cfg.target_name.toList]
        missing_words := []
        success := false
        aborted := false
        round := 0
        current_context := cfg.prompt.toList }
    terminated := false
    truncated := false }

/-- Embedding of `HelloGameEnvironment._validate_greeting`: a greeting that does not start
with the literal `"GREET:"` sets `aborted := true, success := false` and
returns; otherwise `aborted := false, success := true`, then every required
word that is not a substring of the cleaned greeting is collected into
`missing_words`, and any miss resets `success := false`. -/
def validate_greeting (s : HelloState) (greeting : List Char) : HelloState :=
  if ¬ ("GREET:".toList.isPrefixOf greeting) then
    { s with aborted := true, success := false }
  else
    let s1 := { s with aborted := false, success := true }
    let greeting_clean := cleanGreeting greeting
    let missing :=
      s1.required_words.filter (fun w => ¬ strContains greeting_clean w)
    { s1 with
        success := if missing.isEmpty then s1.success else false
        missing_words := missing }

/-- The dict `action.get("text", "")` is read from. -/
structure HelloAction where
  text : List Char := []
  deriving Repr, DecidableEq

/-- The observation dict built by `step`. -/
structure HelloObs where
  context : List Char
  success : Bool
  round : Nat
  deriving Repr, DecidableEq

/-- The `info` dict returned by `step`: either the already-terminated warning
or the full result record. -/
inductive HelloInfo where
  | warning (msg : String)
  | result (message : String) (success aborted : Bool)
      (missing_words : List (List Char))
  deriving Repr, DecidableEq

/-- The 5-tuple returned by `HelloGameEnvironment.step`
(observation, reward, terminated, truncated, info). Python's float reward is
`1.0` or `0.0`, embedded as `1` / `0`. -/
structure HelloStepResult where
  observation : HelloObs
  reward : Nat
  terminated : Bool
  truncated : Bool
  info : HelloInfo
  deriving Repr, DecidableEq

/-- The result message chosen by `step` for the info dict. -/
def stepMessage (s : HelloState) : String :=
  if s.aborted then "invalid format: abort game"
  else if s.success then "greeting successful: end game"
  else "greeting failed: missing words"

/-- Embedding of `HelloGameEnvironment.step`. The method contains no `raise`: when
`self.terminated or self.truncated` it logs a warning, sets
`self.info = {"warning": "Environment already terminated"}` and returns the
current observation unchanged; otherwise it stores the text into
`current_context`, runs `_validate_greeting`, increments `round`, sets
`terminated := true` (one-round game) and assembles reward, info and
observation. An exception would appear here as `Except.error`. -/
def helloStep (e : HelloEnv) (action : HelloAction) :
    Except String (HelloStepResult × HelloEnv) :=
  if e.terminated || e.truncated then
    Except.ok
      ({ observation :=
           { context := e.state.current_context
             success := e.state.success
             round := e.state.round }
         reward := 0
         terminated := e.terminated
         truncated := e.truncated
         info := HelloInfo.warning "Environment already terminated" }, e)
  else
    let text_response := action.text
    let s1 := { e.state with current_context := text_response }
    let s2 := validate_greeting s1 text_response
    let s3 := { s2 with round := s2.round + 1 }
    let terminated := true
    let reward := if s3.success then 1 else 0
    let info := HelloInfo.result (stepMessage s3) s3.success s3.aborted
      s3.missing_words
    let observation : HelloObs :=
      { context := s3.current_context
        success := s3.success
        round := s3.round }
    Except.ok
      ({ observation := observation
         reward := reward
         terminated := terminated
         truncated := e.truncated
         info := info },
       { e with state := s3, terminated := terminated })

end Hello

namespace BaseEnv

/-- Assoc-list model of a Python dict keyed by player name. -/
def lookupAssoc {α : Type} (l : List (String × α)) (k : String) : Option α :=
  match l with
  | [] => none
  | (k1, v) :: rest => if k1 = k then some v else lookupAssoc rest k

/-- The state keys that `GameEnvironment.step` reads and writes
(this base-class `step` is a copied variant of the hello game's). -/
structure BState where
  current_context : List Char
  round : Nat
  success : Bool
  aborted : Bool
  missing_words : List (List Char)
  deriving Repr, DecidableEq

/-- The action dict: `action["action_type"]` is always read;
`action_dict["body"]` raises `KeyError` when absent, hence an `Option`. -/
structure BAction where
  action_type : String
  body : Option (List Char) := none
  deriving Repr, DecidableEq

/-- Embedding of `GameEnvironment`: per-player action spaces (lists of action-type tags),
per-player observation dicts, the state dict and the `terminated` flag. -/
structure BEnv where
  action_spaces : List (String × List String)
  observation_spaces : List (String × (List Char))
  state : BState
  terminated : Bool
  deriving Repr, DecidableEq

/-- The message of the `ValueError` raised by `GameEnvironment.step` on an
invalid action (the Python message interpolates the full action dict; the
embedded message carries the action type). -/
def invalidActionMsg (a : BAction) : String :=
  "[step] Invalid action: " ++ a.action_type

/-- Embedding of `GameEnvironment._validate_action`: look up the player's action space
(`KeyError` if the player is unregistered), require membership of
`action_type`, then defer to `_is_action_valid_in_state` (a subclass hook,
`True` in the base class, passed here as the parameter `validInState`). -/
def validate_action (validInState : String → String → Bool) (e : BEnv)
    (player : String) (a : BAction) : Except String Bool :=
  match lookupAssoc e.action_spaces player with
  | none => Except.error ("KeyError: " ++ player)
  | some space =>
    if ¬ space.contains a.action_type then Except.ok false
    else if ¬ validInState player a.action_type then Except.ok false
    else Except.ok true

/-- Embedding of `GameEnvironment.step`: validates the action and raises
`ValueError("[step] Invalid action: ...")` when validation fails (it even
validates twice, raising at the first failure); on a valid action it reads
`action_dict["body"]`, stores it, bumps `round`, terminates, scores and
returns `(observation, score, terminated)`. -/
def bstep (validInState : String → String → Bool) (e : BEnv)
    (player : String) (a : BAction) :
    Except String ((List Char × Bool) × Nat × Bool × BEnv) :=
  match validate_action validInState e player a with
  | Except.error msg => Except.error msg
  | Except.ok ok =>
    if ¬ ok then
      Except.error (invalidActionMsg a)
    else
      match a.body with
      | none => Except.error "KeyError: body"
      | some text_response =>
        let s1 := { e.state with current_context := text_response }
        match validate_action validInState e player a with
        | Except.error msg => Except.error msg
        | Except.ok ok2 =>
          if ¬ ok2 then
            Except.error (invalidActionMsg a)
          else
            let s2 := { s1 with round := s1.round + 1 }
            let terminated := true
            let score := if s2.success then 1 else 0
            let observation := (s2.current_context, s2.success)
            let e2 :=
              { e with
                  state := s2
                  terminated := terminated
                  observation_spaces :=
                    (player, s2.current_context) :: e.observation_spaces }
            Except.ok (observation, score, terminated, e2)

/-- The base-class `_is_action_valid_in_state`, which always returns `True`. -/
def defaultValidInState : String → String → Bool := fun _ _ => true

end BaseEnv

namespace Portal

/-- The object classes of `portalgame/objects.py`: walls, the portal, doors
(with their `is_open` flag), switches (with their `activated` flag) and the
clemcore `PlayerObject` marker. -/
inductive PObj where
  | wall : PObj
  | portal : PObj
  | door (is_open : Bool) : PObj
  | switch (activated : Bool) : PObj
  | playerObj (name : String) : PObj
  deriving Repr, DecidableEq

/-- Python list read `l[i]`: a non-negative index within range, or a negative
index counted from the end; anything else raises `IndexError` (`none`). -/
def pyIdx {α : Type} (l : List α) (i : Int) : Option α :=
  if 0 ≤ i then l.get? i.toNat
  else if (-i).toNat ≤ l.length then l.get? (l.length - (-i).toNat)
  else none

/-- Python list write `l[i] = x` at an index already known to be readable
(callers only write where they just read). -/
def pyWrite {α : Type} (l : List α) (i : Int) (x : α) : List α :=
  if 0 ≤ i then l.set i.toNat x
  else l.set (l.length - (-i).toNat) x

/-- Read a cell of the 2-D Python list `grid[row][col]`. -/
def pyIdx2 {α : Type} (g : List (List α)) (row col : Int) : Option α :=
  match pyIdx g row with
  | none => none
  | some r => pyIdx r col

/-- Write a cell of the 2-D Python list (`grid[row][col] = x`, both indices
already known to be readable). -/
def pyWrite2 {α : Type} (g : List (List α)) (row col : Int) (x : α) :
    List (List α) :=
  match pyIdx g row with
  | none => g
  | some r => pyWrite g row (pyWrite r col x)

/-- A cell's ordered object list (a `GridCell`'s `objects` entry; the cell's
`position` is its index in the grid). -/
abbrev Cell := List PObj

/-- Embedding of `self.state["grid"]`: height × width cells. -/
abbrev Grid := List (List Cell)

/-- The keys of `PortalGameState` that the portal environment touches. -/
structure PState where
  grid : Grid
  player_positions : List (String × (Int × Int))
  success : Bool
  terminated : Bool
  aborted : Bool
  moves : Nat
  warning : String
  deriving Repr, DecidableEq

/-- The environment: grid dimensions, registered player names (in add
order), the state dict, and the per-player `explored` fog-of-war masks. -/
structure PEnv where
  height : Nat
  width : Nat
  players : List String
  state : PState
  explored : List (String × List (List Bool))
  deriving Repr, DecidableEq

/-- Dict lookup on an assoc list (`d[k]`, `None` for a missing key). -/
def lookupAssoc {α : Type} (l : List (String × α)) (k : String) : Option α :=
  match l with
  | [] => none
  | (k1, v) :: rest => if k1 = k then some v else lookupAssoc rest k

/-- Dict update `d[k] = v` on an assoc list (overwrites the first binding of
`k`; leaves the dict unchanged when `k` is absent, which callers never do). -/
def setAssoc {α : Type} (l : List (String × α)) (k : String) (v : α) :
    List (String × α) :=
  match l with
  | [] => []
  | (k1, v1) :: rest =>
    if k1 = k then (k1, v) :: rest else (k1, v1) :: setAssoc rest k v

/-- Set one mask entry to `True` (`self.explored[name][i][j] = True`), the
indices having been bounds-checked by the caller. -/
def markCell (mask : List (List Bool)) (i j : Nat) : List (List Bool) :=
  match mask.get? i with
  | none => mask
  | some rowL => mask.set i (rowL.set j true)

/-- Embedding of `PortalGameEnvironment._mark_explored` on one player's mask: walk the
3 × 3 neighbourhood of `pos` row-major and set every in-bounds cell to
explored. -/
def markExplored (height width : Nat) (mask : List (List Bool))
    (pos : Int × Int) : List (List Bool) :=
  let is := [pos.1 - 1, pos.1, pos.1 + 1]
  let js := [pos.2 - 1, pos.2, pos.2 + 1]
  is.foldl
    (fun m i =>
      js.foldl
        (fun m j =>
          if 0 ≤ i ∧ i < (height : Int) ∧ 0 ≤ j ∧ j < (width : Int) then
            markCell m i.toNat j.toNat
          else m)
        m)
    mask

/-- Embedding of `_mark_explored` lifted to the per-player mask dict. -/
def markExploredFor (height width : Nat)
    (explored : List (String × List (List Bool))) (name : String)
    (pos : Int × Int) : List (String × List (List Bool)) :=
  explored.map (fun p =>
    if p.1 = name then (p.1, markExplored height width p.2 pos) else p)

/-- The move destination: `n`/`s`/`e`/`w` steps the position, any other
direction leaves `player_positions` unwritten (position unchanged). -/
def movePos (pos : Int × Int) (direction : String) : Int × Int :=
  if direction = "n" then (pos.1 - 1, pos.2)
  else if direction = "s" then (pos.1 + 1, pos.2)
  else if direction = "e" then (pos.1, pos.2 + 1)
  else if direction = "w" then (pos.1, pos.2 - 1)
  else pos

/-- The side-effect loop of the switch branch: for every cell of the grid,
look at `cell["objects"][-1]` (an `IndexError` on an empty cell) and call
`toggle_state()` on it when it is a `Door`. -/
def toggleDoors (grid : Grid) : Except String Grid :=
  grid.mapM (fun rowCells =>
    rowCells.mapM (fun cell =>
      match cell.getLast? with
      | none => Except.error "IndexError: list index out of range"
      | some (PObj.door b) => Except.ok (cell.dropLast ++ [PObj.door (!b)])
      | some _ => Except.ok cell))

/-- Embedding of `PortalGameEnvironment._update_state_through_action`: pop the top object
of the mover's cell, write the new position, append the popped object to the
destination cell, mark the 3 × 3 neighbourhood explored, then inspect the
destination's *top* object (which is the object just appended): a `Portal`
on top terminates with success; otherwise the flags are reset to
`aborted = False, terminated = False, success = True` and a `Switch` on top
flips its `activated` flag and toggles every door on the grid. -/
def updateThroughAction (e : PEnv) (player : String) (direction : String) :
    Except String PEnv :=
  match lookupAssoc e.state.player_positions player with
  | none => Except.error ("KeyError: " ++ player)
  | some (row, col) =>
    match pyIdx2 e.state.grid row col with
    | none => Except.error "IndexError: grid"
    | some current_cell =>
      match current_cell.getLast? with
      | none => Except.error "IndexError: pop from empty list"
      | some player_object =>
        let grid1 := pyWrite2 e.state.grid row col current_cell.dropLast
        let newPos := movePos (row, col) direction
        match pyIdx2 grid1 newPos.1 newPos.2 with
        | none => Except.error "IndexError: grid"
        | some new_cell =>
          let ncell2 := new_cell ++ [player_object]
          let grid2 := pyWrite2 grid1 newPos.1 newPos.2 ncell2
          let pp2 := setAssoc e.state.player_positions player newPos
          let expl2 := markExploredFor e.height e.width e.explored player newPos
          match ncell2.getLast? with
          | some PObj.portal =>
            Except.ok
              { e with
                  state :=
                    { e.state with
                        grid := grid2
                        player_positions := pp2
                        terminated := true
                        success := true
                        aborted := false }
                  explored := expl2 }
          | some (PObj.switch b) =>
            let ncell3 := ncell2.dropLast ++ [PObj.switch (!b)]
            let grid3 := pyWrite2 grid2 newPos.1 newPos.2 ncell3
            match toggleDoors grid3 with
            | Except.error msg => Except.error msg
            | Except.ok grid4 =>
              Except.ok
                { e with
                    state :=
                      { e.state with
                          grid := grid4
                          player_positions := pp2
                          aborted := false
                          terminated := false
                          success := true }
                    explored := expl2 }
          | _ =>
            Except.ok
              { e with
                  state :=
                    { e.state with
                        grid := grid2
                        player_positions := pp2
                        aborted := false
                        terminated := false
                        success := true }
                  explored := expl2 }

/-- Embedding of `PortalGameEnvironment._is_action_valid_in_state`: reject an unknown
direction, an out-of-bounds destination, a wall on top of the destination,
or a closed door on top of the destination, each with its feedback string;
otherwise accept with an empty reason. -/
def isActionValidInState (e : PEnv) (player : String) (direction : String) :
    Except String (Bool × String) :=
  match lookupAssoc e.state.player_positions player with
  | none => Except.error ("KeyError: " ++ player)
  | some (row, col) =>
    if ¬ (direction = "n" ∨ direction = "s" ∨ direction = "e" ∨
          direction = "w") then
      Except.ok (false, "Invalid direction: " ++ direction ++
        "! Please try again.")
    else
      let newPos := movePos (row, col) direction
      let newRow := newPos.1
      let newCol := newPos.2
      if ¬ (0 ≤ newRow ∧ newRow < (e.height : Int) ∧ 0 ≤ newCol ∧
            newCol < (e.width : Int)) then
        Except.ok (false, "The cell is outside the grid! Please try again.")
      else
        match pyIdx2 e.state.grid newRow newCol with
        | none => Except.error "IndexError: grid"
        | some cell =>
          match cell.getLast? with
          | some PObj.wall =>
            Except.ok (false,
              "The object at the cell is a wall! You cannot pass through walls! Please try again.")
          | some (PObj.door is_open) =>
            if ¬ is_open then
              Except.ok (false,
                "The object at the cell is a closed door! You need to open it first.")
            else Except.ok (true, "")
          | _ => Except.ok (true, "")

/-- The configuration keys that `reset` and `_construct_grid` read
(`config["grid"]` and `config["max_moves"]`; `player_start` is obligatory in
`reset` and defaulted in `_construct_grid`). -/
structure PConfig where
  walls : List (Int × Int) := []
  portal : Option (Int × Int) := none
  switch : Option (Int × Int) := none
  door : Option (Int × Int) := none
  player_start : Int × Int := (0, 0)
  max_moves : Nat := 20
  prompt : String := ""
  deriving Repr, DecidableEq

/-- Append an object to the cell list at a grid position
(`self.state["grid"][row][col]["objects"].append(obj)`). -/
def appendObjAt (grid : Grid) (pos : Int × Int) (o : PObj) :
    Except String Grid :=
  match pyIdx2 grid pos.1 pos.2 with
  | none => Except.error "IndexError: grid"
  | some cell => Except.ok (pyWrite2 grid pos.1 pos.2 (cell ++ [o]))

/-- Append an object at an optional configured position. -/
def appendOptObjAt (grid : Grid) (pos : Option (Int × Int)) (o : PObj) :
    Except String Grid :=
  match pos with
  | none => Except.ok grid
  | some p => appendObjAt grid p o

/-- Embedding of `PortalGameEnvironment._construct_grid`: walls, then the optional
portal, switch and door, then the first player's `PlayerObject` at
`player_start` (doors start closed, switches start deactivated). -/
def constructGrid (cfg : PConfig) (grid : Grid) (firstPlayer : String) :
    Except String Grid := do
  let g1 ← cfg.walls.foldlM (fun g p => appendObjAt g p PObj.wall) grid
  let g2 ← appendOptObjAt g1 cfg.portal PObj.portal
  let g3 ← appendOptObjAt g2 cfg.switch (PObj.switch false)
  let g4 ← appendOptObjAt g3 cfg.door (PObj.door false)
  appendObjAt g4 cfg.player_start (PObj.playerObj firstPlayer)

/-- Embedding of `PortalGameEnvironment.reset`: a fresh all-empty grid, the first
player's start position, all flags `False`, zero moves, an empty warning;
then `_construct_grid`, then an all-`False` explored mask per player with
each player's 3 × 3 start neighbourhood marked explored. (The observation
text/image assembly is omitted; it writes no state the claims read.) -/
def portalReset (e : PEnv) (cfg : PConfig) : Except String PEnv :=
  match e.players.head? with
  | none => Except.error "IndexError: players"
  | some firstPlayer =>
    let emptyGrid : Grid :=
      List.replicate e.height (List.replicate e.width ([] : Cell))
    match constructGrid cfg emptyGrid firstPlayer with
    | Except.error msg => Except.error msg
    | Except.ok grid =>
    let positions := e.players.map (fun p => (p, cfg.player_start))
    let freshMask : List (List Bool) :=
      List.replicate e.height (List.replicate e.width false)
    let explored0 := e.players.map (fun p => (p, freshMask))
    let explored1 := e.players.foldl
      (fun ex p => markExploredFor e.height e.width ex p cfg.player_start)
      explored0
    Except.ok
      { e with
          state :=
            { grid := grid
              player_positions := positions
              success := false
              terminated := false
              aborted := false
              moves := 0
              warning := "" }
          explored := explored1 }

/-- One entry of a fog-of-war mask (`False` when out of range, which
in-range lookups never are). -/
def maskAt (mask : List (List Bool)) (r c : Nat) : Bool :=
  (((mask.get? r).getD []).get? c).getD false

/-- The explored flag of one cell for one player in a mask dict (`False`
when the player is unknown, which registered players never are). -/
def exploredIn (ex : List (String × List (List Bool))) (name : String)
    (r c : Nat) : Bool :=
  match lookupAssoc ex name with
  | none => false
  | some mask => maskAt mask r c

/-- The explored flag of one cell for one player of an environment. -/
def exploredAt (e : PEnv) (name : String) (r c : Nat) : Bool :=
  exploredIn e.explored name r c

/-- One in-episode operation on the environment: a direct `_mark_explored`
call or a successful `_update_state_through_action` (the two operations
between resets that touch the explored masks). -/
inductive PortalOp : PEnv → PEnv → Prop where
  | mark (e : PEnv) (name : String) (pos : Int × Int) :
      PortalOp e
        { e with explored := markExploredFor e.height e.width e.explored name pos }
  | update (e : PEnv) (player direction : String) (e2 : PEnv) :
      updateThroughAction e player direction = Except.ok e2 → PortalOp e e2

/-- Any finite sequence of in-episode operations. -/
inductive PortalEvolve : PEnv → PEnv → Prop where
  | refl (e : PEnv) : PortalEvolve e e
  | tail (e1 e2 e3 : PEnv) :
      PortalEvolve e1 e2 → PortalOp e2 e3 → PortalEvolve e1 e3

/-- Reachable portal states: a successful `reset`, extended by successful
`_update_state_through_action` calls (`_is_action_valid_in_state` reads but
never writes the state). -/
inductive PortalReach : PEnv → Prop where
  | reset (e : PEnv) (cfg : PConfig) (e2 : PEnv) :
      portalReset e cfg = Except.ok e2 → PortalReach e2
  | update (e : PEnv) (player direction : String) (e2 : PEnv) :
      PortalReach e → updateThroughAction e player direction = Except.ok e2 →
      PortalReach e2

end Portal

deriving instance DecidableEq for Except

namespace TTT

/-- The machine-parseable glyph of a `TicTacToeCell` for value `"X"`, given
here by its exact code points as carried in the source file (the file stores
the glyphs as fixed, pairwise-distinct literal strings, used consistently by
the cell constructor, `check_game_state` and `_is_action_valid_in_state`). -/
def symX : String := String.mk ([0xE2, 0x17D].map Char.ofNat)

/-- The glyph for value `"O"`, by its exact code points. -/
def symO : String :=
  String.mk ([0xF0, 0x178, 0x2026, 0xBE, 0xEF, 0xB8].map Char.ofNat)

/-- The glyph for an empty cell (any value other than `"X"`/`"O"`,
including the `""` used by `_initialize_grid`), by its exact code points. -/
def symEmpty : String :=
  String.mk ([0xE2, 0xAC, 0x153, 0xEF, 0xB8].map Char.ofNat)

/-- Embedding of `TicTacToeCell.__init__`: the symbol stored for a given `value`. -/
def cellSymbol (value : String) : String :=
  if value = "X" then symX else if value = "O" then symO else symEmpty

/-- The grid holds, per cell, the ordered list of objects' symbols
(every object in this game is a `TicTacToeCell`, identified by its symbol).
Modelled from the spec: the clemcore grid keeps one ordered object list per
cell; `get_objects_at` returns it, `add_object` appends to it,
`remove_object` deletes the given object from it. -/
abbrev TGrid := List (List (List String))

/-- Embedding of `get_objects_at((i, j))` on the symbol grid. -/
def objectsAt (g : TGrid) (i j : Nat) : List String :=
  ((g.get? i).getD []).get? j |>.getD []

/-- Replace the object list of one cell. -/
def setCell (g : TGrid) (i j : Nat) (objs : List String) : TGrid :=
  match g.get? i with
  | none => g
  | some rowL => g.set i (rowL.set j objs)

/-- Embedding of `add_object` at a position: append to that cell's list.
Modelled from the spec: "add_object(obj) appends at obj.position". -/
def addObjAt (g : TGrid) (i j : Nat) (s : String) : TGrid :=
  setCell g i j (objectsAt g i j ++ [s])

/-- The flag keys of the clemcore `GridState` that tic-tac-toe reads and
writes, plus the grid. -/
structure TState where
  grid : TGrid
  success : Bool
  aborted : Bool
  terminated : Bool
  deriving Repr, DecidableEq

/-- The environment: state plus the `current_player` marker (1 for X, 2 for
O). -/
structure TEnv where
  state : TState
  current_player : Nat
  deriving Repr, DecidableEq

/-- Embedding of `TicTacToeEnvironment._get_board_from_grid`: a 3 × 3 board initialised
to `" "`, overwritten with `objects[0].symbol` wherever the cell has
objects. -/
def boardFromGrid (g : TGrid) : List (List String) :=
  (List.range 3).map (fun i =>
    (List.range 3).map (fun j =>
      match (objectsAt g i j).head? with
      | some s => s
      | none => " "))

/-- One board entry (`board[i][j]`). -/
def boardAt (b : List (List String)) (i j : Nat) : String :=
  (((b.get? i).getD []).get? j).getD " "

/-- Embedding of `all(board_np[i, :] == s)`. -/
def rowAll (b : List (List String)) (i : Nat) (s : String) : Bool :=
  (List.range 3).all (fun j => boardAt b i j = s)

/-- Embedding of `all(board_np[:, j] == s)`. -/
def colAll (b : List (List String)) (j : Nat) (s : String) : Bool :=
  (List.range 3).all (fun i => boardAt b i j = s)

/-- Embedding of `all(np.diag(board_np) == s)`. -/
def diagAll (b : List (List String)) (s : String) : Bool :=
  (List.range 3).all (fun i => boardAt b i i = s)

/-- Embedding of `all(np.diag(np.fliplr(board_np)) == s)`. -/
def adiagAll (b : List (List String)) (s : String) : Bool :=
  (List.range 3).all (fun i => boardAt b i (2 - i) = s)

/-- Embedding of `np.all(board_np != symEmpty)`. -/
def allFilled (b : List (List String)) : Bool :=
  (List.range 3).all (fun i => (List.range 3).all (fun j =>
    boardAt b i j ≠ symEmpty))

/-- Embedding of `TicTacToeEnvironment.check_game_state`: first unconditionally set
`success := True, aborted := False, terminated := False`; then any complete
row or column of X or of O (the Python loop interleaves the X and O tests
per index `i`, with identical flag writes in every winning branch), or any
main or anti diagonal of X or of O, terminates with `success = True`; a
fully filled board with no winning line terminates with `success = False`. -/
def check_game_state (s : TState) : TState :=
  let b := boardFromGrid s.grid
  let s0 := { s with success := true, aborted := false, terminated := false }
  let lineWin := (List.range 3).any (fun i =>
    rowAll b i symX || colAll b i symX || rowAll b i symO || colAll b i symO)
  let diagWin :=
    diagAll b symX || adiagAll b symX || diagAll b symO || adiagAll b symO
  if lineWin then { s0 with terminated := true, success := true }
  else if diagWin then { s0 with terminated := true, success := true }
  else if allFilled b then { s0 with terminated := true, success := false }
  else s0

/-- Embedding of `TicTacToeEnvironment._update_state_through_action`: if the target cell
has objects, `remove_object(objects[0])` deletes its first object; a fresh
`TicTacToeCell` carrying the current player's symbol is appended; the
game-over check runs on the updated grid; finally `current_player` flips. -/
def updateThroughAction (e : TEnv) (row col : Nat) : TEnv :=
  let objects := objectsAt e.state.grid row col
  let grid1 :=
    if objects.isEmpty then e.state.grid
    else setCell e.state.grid row col (objects.drop 1)
  let symbol := if e.current_player = 1 then "X" else "O"
  let grid2 := addObjAt grid1 row col (cellSymbol symbol)
  let s2 := check_game_state { e.state with grid := grid2 }
  { state := s2
    current_player := if e.current_player = 2 then 1 else 2 }

/-- Embedding of `_initialize_grid`: one `TicTacToeCell` with value `""` per cell. -/
def initializeGrid (g : TGrid) : TGrid :=
  (List.range 3).foldl (fun g i =>
    (List.range 3).foldl (fun g j => addObjAt g i j (cellSymbol "")) g) g

/-- Embedding of `TicTacToeEnvironment.reset`. Modelled from the spec: the clemcore base
`reset` re-creates the state with its required flag fields `False` and a
fresh empty grid ("fully replaces prior state"); then `_initialize_grid`
fills the cells and `current_player` returns to 1. -/
def tttReset : TEnv :=
  let empty : TGrid := List.replicate 3 (List.replicate 3 [])
  { state :=
      { grid := initializeGrid empty
        success := false
        aborted := false
        terminated := false }
    current_player := 1 }

/-- Reachable tic-tac-toe states: `reset`, then any sequence of
`_update_state_through_action` calls (`_is_action_valid_in_state` reads but
never writes the state). -/
inductive TttReach : TEnv → Prop where
  | reset : TttReach tttReset
  | update (e : TEnv) (row col : Nat) :
      TttReach e → TttReach (updateThroughAction e row col)

end TTT

namespace GM

/-- The turn-order bookkeeping of `DialogueGameMaster`: the players in add
order (`get_players()`) and `current_player_idx`. -/
structure GMState where
  players : List String
  current_player_idx : Nat
  deriving Repr, DecidableEq

/-- Embedding of `DialogueGameMaster._next_player`: raise `ValueError` when no players
were added; otherwise set `current_player_idx := (current_player_idx + 1) %
len(players)` and return the player at the new index. -/
def nextPlayer (g : GMState) : Except String (GMState × String) :=
  if g.players.isEmpty then
    Except.error "No players have been added to the game"
  else
    let idx := (g.current_player_idx + 1) % g.players.length
    Except.ok ({ g with current_player_idx := idx }, g.players.getD idx "")

/-- Embedding of `DialogueGameMaster._start_next_round`: `current_player_idx == 0`. -/
def startNextRound (g : GMState) : Bool :=
  g.current_player_idx = 0

end GM

namespace Sudoku

/-- Embedding of `grid_np[i][j]` with the out-of-range default `0` (callers stay in
range on well-formed boards). -/
def get2 (g : List (List Nat)) (i j : Nat) : Nat :=
  (((g.get? i).getD []).get? j).getD 0

/-- Embedding of `value in grid_np[row]`. -/
def rowHas (g : List (List Nat)) (row v : Nat) : Bool :=
  ((g.get? row).getD []).contains v

/-- Embedding of `value in grid_np[:, col]` (the column; rows shorter than `col` have no
entry there, as in a ragged slice). -/
def colHas (g : List (List Nat)) (col v : Nat) : Bool :=
  (g.filterMap (fun r => r.get? col)).contains v

/-- Embedding of `value in grid_np[block_row : block_row+3, block_col : block_col+3]`
(numpy slices truncate at the array edge). -/
def blockHas (g : List (List Nat)) (row col v : Nat) : Bool :=
  let block_row := row / 3 * 3
  let block_col := col / 3 * 3
  ((g.drop block_row).take 3).any (fun r =>
    ((r.drop block_col).take 3).contains v)

/-- Embedding of `SudokuEnvironment._is_grid_valid`: reject a non-empty target cell,
then a duplicate of `value` in the row or column, then one in the 3 × 3
block; otherwise accept. -/
def is_grid_valid (g : List (List Nat)) (row col value : Nat) : Bool :=
  if get2 g row col ≠ 0 then false
  else if rowHas g row value || colHas g col value then false
  else if blockHas g row col value then false
  else true

/-- Embedding of `SudokuEnvironment._is_grid_solved`: a grid containing a `0` anywhere is
unsolved; otherwise every cell `(i, j)` of the `grid_size × grid_size` board
must satisfy `_is_grid_valid(grid, i, j, grid[i][j])`. -/
def is_grid_solved (n : Nat) (g : List (List Nat)) : Bool :=
  if ¬ (g.all (fun row => ! row.contains 0)) then false
  else
    (List.range n).all (fun i => (List.range n).all (fun j =>
      is_grid_valid g i j (get2 g i j)))

/-- The object grid: per cell the list of `SudokuObject` values placed
there, as for tic-tac-toe. Modelled from the spec: clemcore keeps one
ordered object list per cell, with `get_objects_at` / `add_object` /
`remove_object` as list read / append / delete. -/
abbrev SGrid := List (List (List Nat))

/-- Embedding of `get_objects_at((i, j))` on the value grid. -/
def objectsAt (g : SGrid) (i j : Nat) : List Nat :=
  ((g.get? i).getD []).get? j |>.getD []

/-- Replace the object list of one cell. -/
def setCell (g : SGrid) (i j : Nat) (objs : List Nat) : SGrid :=
  match g.get? i with
  | none => g
  | some rowL => g.set i (rowL.set j objs)

/-- The flag keys of the clemcore `GridState` that sudoku writes, plus the
object grid and the board size. -/
structure SEnv where
  grid_size : Nat
  grid : SGrid
  success : Bool
  aborted : Bool
  terminated : Bool
  deriving Repr, DecidableEq

/-- Embedding of `SudokuEnvironment._get_board_from_grid`: a `grid_size × grid_size`
board of `0`, overwritten with `int(objects[0].symbol)` wherever a cell has
objects. -/
def boardFromGrid (n : Nat) (g : SGrid) : List (List Nat) :=
  (List.range n).map (fun i =>
    (List.range n).map (fun j =>
      match (objectsAt g i j).head? with
      | some v => v
      | none => 0))

/-- Embedding of `SudokuEnvironment._update_state_through_action`: if the target cell has
objects, delete `objects[0]`; append a fresh `SudokuObject` carrying
`value`; re-extract the board; a solved board sets
`terminated := True, success := True, aborted := False`, an unsolved one
sets all three to `False`. -/
def updateThroughAction (e : SEnv) (row col value : Nat) : SEnv :=
  let objects := objectsAt e.grid row col
  let grid1 :=
    if objects.isEmpty then e.grid
    else setCell e.grid row col (objects.drop 1)
  let grid2 := setCell grid1 row col (objectsAt grid1 row col ++ [value])
  let board := boardFromGrid e.grid_size grid2
  if is_grid_solved e.grid_size board then
    { e with grid := grid2, terminated := true, success := true,
             aborted := false }
  else
    { e with grid := grid2, terminated := false, success := false,
             aborted := false }

end Sudoku

namespace Hello

/-- Reachable hello-game environments: a `reset`, extended by any sequence
of `_validate_greeting` and `step` calls. -/
inductive HelloReach : HelloEnv → Prop where
  | reset (cfg : HelloConfig) : HelloReach (helloReset cfg)
  | validate (e : HelloEnv) (g : List Char) :
      HelloReach e → HelloReach { e with state := validate_greeting e.state g }
  | step (e : HelloEnv) (a : HelloAction) (r : HelloStepResult) (e2 : HelloEnv) :
      HelloReach e → helloStep e a = Except.ok (r, e2) → HelloReach e2

/-- A hello environment whose episode is already over (the post-`reset`
state shape with the instance flag `terminated` set, as after one `step`). -/
def c1Env : HelloEnv :=
  { state := (helloReset { target_name := "Ted" }).state
    terminated := true
    truncated := false }

/-- An arbitrary further action sent to the terminated environment. -/
def c1Act : HelloAction := { text := "GREET: hello again".toList }

/-- The configuration of the spec's greeting scenario: target name `"Ted"`,
so that `reset` computes `required_words = ["welcome", "hello", "ted"]`. -/
def c5cfg : HelloConfig := { target_name := "Ted" }

end Hello

namespace BaseEnv

/-- A base environment with one registered player whose action space is
`["greet"]`. -/
def c2Env : BEnv :=
  { action_spaces := [("Player 1", ["greet"])]
    observation_spaces := []
    state :=
      { current_context := []
        round := 0
        success := false
        aborted := false
        missing_words := [] }
    terminated := false }

/-- An action whose `action_type` is not in the player's action space. -/
def c2Act : BAction := { action_type := "jump", body := some "hi!".toList }

end BaseEnv

namespace Portal

/-- A 1 × 2 portal game: the player stands at `(0, 0)`, the portal fills the
destination cell `(0, 1)`; moving east is a valid move onto the portal. -/
def c3Env : PEnv :=
  { height := 1
    width := 2
    players := ["Player 1"]
    state :=
      { grid := [[[PObj.playerObj "Player 1"], [PObj.portal]]]
        player_positions := [("Player 1", (0, 0))]
        success := false
        terminated := false
        aborted := false
        moves := 0
        warning := "" }
    explored := [("Player 1", [[true, true]])] }

/-- A 1 × 3 portal game: the player at `(0, 0)`, the switch (deactivated) at
`(0, 1)`, a closed door at `(0, 2)`; moving east is a valid move onto the
switch. -/
def c4Env : PEnv :=
  { height := 1
    width := 3
    players := ["Player 1"]
    state :=
      { grid :=
          [[[PObj.playerObj "Player 1"], [PObj.switch false],
            [PObj.door false]]]
        player_positions := [("Player 1", (0, 0))]
        success := false
        terminated := false
        aborted := false
        moves := 0
        warning := "" }
    explored := [("Player 1", [[true, true, false]])] }

/-- A 1 × 1 portal environment used to exercise the explored-mask
operations: the single cell is already explored. -/
def c8Env : PEnv :=
  { height := 1
    width := 1
    players := ["Player 1"]
    state :=
      { grid := [[[PObj.playerObj "Player 1"]]]
        player_positions := [("Player 1", (0, 0))]
        success := false
        terminated := false
        aborted := false
        moves := 0
        warning := "" }
    explored := [("Player 1", [[true]])] }

end Portal

namespace TTT

/-- The five moves of the spec scenario: X, O, X, O, X placed alternately,
the fifth completing the top row for X. -/
def c6Moves : List (Nat × Nat) := [(0, 0), (1, 0), (0, 1), (1, 1), (0, 2)]

/-- The environment after playing the five scenario moves from `reset`. -/
def c6Final : TEnv :=
  c6Moves.foldl (fun e p => updateThroughAction e p.1 p.2) tttReset

end TTT

namespace Sudoku

/-- A 1 × 1 sudoku environment holding a single filled cell. -/
def c10Env : SEnv :=
  { grid_size := 1
    grid := [[[3]]]
    success := false
    aborted := false
    terminated := false }

end Sudoku

section HelloAndBaseTheorems

open Hello BaseEnv

/-- C1 (amended): for every hello environment already flagged `terminated`
(or `truncated`), a further `step(player, action)` does not raise: it
returns `Except.ok` with the current observation, reward `0`, the unchanged
flags, the info warning `"Environment already terminated"`, and the
environment itself unchanged — a silent no-op rather than a loud failure. -/
theorem C1_terminated_step_returns_instead_of_raising (e : HelloEnv)
    (a : HelloAction) (h : e.terminated = true ∨ e.truncated = true) :
    helloStep e a = Except.ok
      ({ observation :=
           { context := e.state.current_context
             success := e.state.success
             round := e.state.round }
         reward := 0
         terminated := e.terminated
         truncated := e.truncated
         info := HelloInfo.warning "Environment already terminated" }, e) := by
  unfold helloStep
  rcases h with h | h <;> simp [h]

/-- C1 witness: the amended theorem applied to the concrete terminated
environment `c1Env` and action `c1Act`. -/
theorem C1_witness :
    c1Env.terminated = true ∧
    helloStep c1Env c1Act = Except.ok
      ({ observation :=
           { context := c1Env.state.current_context
             success := c1Env.state.success
             round := c1Env.state.round }
         reward := 0
         terminated := c1Env.terminated
         truncated := c1Env.truncated
         info := HelloInfo.warning "Environment already terminated" },
       c1Env) :=
  ⟨rfl, C1_terminated_step_returns_instead_of_raising c1Env c1Act
    (Or.inl rfl)⟩

/-- C1 counterexample: at the concrete terminated environment `c1Env`,
`step` returns a result (`isOk`) and leaves the environment unchanged — it
does not fail loudly as the claim states. -/
theorem C1_counterexample :
    (helloStep c1Env c1Act).isOk = true ∧
    (helloStep c1Env c1Act).map (fun r => r.2) = Except.ok c1Env := by
  constructor
  · rfl
  · rfl

/-- C2 (amended): for every player with a registered action space and every
action whose `action_type` is not in that space or that the state-validity
predicate rejects, `GameEnvironment.step` raises
`ValueError("[step] Invalid action: ...")`; the rejection is signalled by
the exception, not recorded in `state`. -/
theorem C2_invalid_action_raises_value_error
    (vis : String → String → Bool) (e : BEnv) (player : String) (a : BAction)
    (space : List String)
    (hspace : BaseEnv.lookupAssoc e.action_spaces player = some space)
    (hbad : space.contains a.action_type = false ∨
            vis player a.action_type = false) :
    bstep vis e player a = Except.error (invalidActionMsg a) := by
  unfold bstep validate_action
  rw [hspace]
  rcases hbad with hb | hb
  · simp only [hb]
    simp
  · by_cases hc : space.contains a.action_type = true
    · simp only [hc, hb]
      simp
    · simp only [Bool.not_eq_true] at hc
      simp only [hc]
      simp

/-- C2 witness: the amended theorem applied to the concrete environment
`c2Env` (player action space `["greet"]`) and the action `c2Act` of type
`"jump"`. -/
theorem C2_witness :
    BaseEnv.lookupAssoc c2Env.action_spaces "Player 1" = some ["greet"] ∧
    (["greet"] : List String).contains c2Act.action_type = false ∧
    bstep defaultValidInState c2Env "Player 1" c2Act =
      Except.error (invalidActionMsg c2Act) :=
  ⟨rfl, rfl,
    C2_invalid_action_raises_value_error defaultValidInState c2Env "Player 1"
      c2Act ["greet"] rfl (Or.inl rfl)⟩

/-- C2 counterexample: at the concrete input, `step` evaluates to a raised
`ValueError` — refuting the claim that it never raises on a rejected
action. -/
theorem C2_counterexample :
    bstep defaultValidInState c2Env "Player 1" c2Act =
      Except.error "[step] Invalid action: jump" := by rfl

/-- C5: with `required_words = ["welcome", "hello", "ted"]` (from `reset`
with target name `"Ted"`), the response `"GREET: welcome ted, hello!"`
validates to `success = true, aborted = false, missing_words = []`, and the
response `"hi ted"` (no `"GREET:"` prefix) validates to
`aborted = true, success = false`. -/
theorem C5_hello_greeting_scenario :
    (helloReset c5cfg).state.required_words =
      ["welcome".toList, "hello".toList, "ted".toList] ∧
    (validate_greeting (helloReset c5cfg).state
        "GREET: welcome ted, hello!".toList).success = true ∧
    (validate_greeting (helloReset c5cfg).state
        "GREET: welcome ted, hello!".toList).aborted = false ∧
    (validate_greeting (helloReset c5cfg).state
        "GREET: welcome ted, hello!".toList).missing_words = [] ∧
    (validate_greeting (helloReset c5cfg).state "hi ted".toList).aborted =
      true ∧
    (validate_greeting (helloReset c5cfg).state "hi ted".toList).success =
      false := by
  refine ⟨by decide, by decide, by decide, by decide, by decide, by decide⟩

end HelloAndBaseTheorems

section PortalTheorems

open Portal

/-- A `foldl` preserves any predicate preserved by its step function. -/
theorem foldl_mono_pred {α β : Type} (P : α → Prop) (f : α → β → α)
    (hf : ∀ a b, P a → P (f a b)) :
    ∀ (l : List β) (a : α), P a → P (l.foldl f a) := by
  intro l
  induction l with
  | nil => intro a h; exact h
  | cons x xs ih => intro a h; exact ih _ (hf _ _ h)

/-- Reading `List.set` at any index: the written value inside bounds at the
written index, the old entry everywhere else. -/
theorem get?_set_preserve {α : Type} (l : List α) (i : Nat) (x : α)
    (r : Nat) :
    (l.set i x).get? r = if r = i ∧ i < l.length then some x
      else l.get? r := by
  induction l generalizing i r with
  | nil => simp
  | cons a as ih =>
    cases i with
    | zero =>
      cases r with
      | zero => simp
      | succ r2 => simp
    | succ i2 =>
      cases r with
      | zero => simp
      | succ r2 =>
        simp only [List.set, List.get?, ih, List.length_cons]
        by_cases hc : r2 = i2 ∧ i2 < as.length
        · rw [if_pos hc, if_pos ⟨by omega, by omega⟩]
        · rw [if_neg hc, if_neg (by omega)]

/-- Setting one mask cell to `True` never clears another entry. -/
theorem maskAt_markCell_mono (m : List (List Bool)) (i j r c : Nat)
    (h : maskAt m r c = true) : maskAt (markCell m i j) r c = true := by
  unfold markCell
  split
  · exact h
  · rename_i rowL hrow
    unfold maskAt at *
    rw [get?_set_preserve]
    split
    · rename_i hcond
      obtain ⟨hri, hlt⟩ := hcond
      subst hri
      simp only [Option.getD_some]
      rw [get?_set_preserve]
      split
      · simp
      · rw [hrow] at h
        simpa using h
    · exact h

/-- A `_mark_explored` pass never clears a mask entry. -/
theorem maskAt_markExplored_mono (hgt wdt : Nat) (mask : List (List Bool))
    (pos : Int × Int) (r c : Nat) (h : maskAt mask r c = true) :
    maskAt (markExplored hgt wdt mask pos) r c = true := by
  unfold markExplored
  apply foldl_mono_pred (P := fun m => maskAt m r c = true)
  · intro m i hm
    apply foldl_mono_pred (P := fun m => maskAt m r c = true)
    · intro m2 j hm2
      split
      · exact maskAt_markCell_mono _ _ _ _ _ hm2
      · exact hm2
    · exact hm
  · exact h

/-- Unfolding `markExploredFor` over the head of the mask dict. -/
theorem markExploredFor_cons (hgt wdt : Nat) (k : String)
    (v : List (List Bool)) (rest : List (String × List (List Bool)))
    (name : String) (pos : Int × Int) :
    markExploredFor hgt wdt ((k, v) :: rest) name pos =
      (k, if k = name then markExplored hgt wdt v pos else v) ::
        markExploredFor hgt wdt rest name pos := by
  unfold markExploredFor
  simp only [List.map_cons]
  congr 1
  by_cases hk : k = name <;> simp [hk]

/-- Looking a player up after `markExploredFor`: the same mask, marked when
the player is the marked one. -/
theorem lookupAssoc_markExploredFor (hgt wdt : Nat)
    (ex : List (String × List (List Bool))) (name n : String)
    (pos : Int × Int) :
    Portal.lookupAssoc (markExploredFor hgt wdt ex name pos) n =
      (Portal.lookupAssoc ex n).map
        (fun m => if n = name then markExplored hgt wdt m pos else m) := by
  induction ex with
  | nil => rfl
  | cons p rest ih =>
    obtain ⟨k, v⟩ := p
    rw [markExploredFor_cons]
    unfold Portal.lookupAssoc
    by_cases hn : k = n
    · subst hn
      simp only [if_pos rfl, Option.map_some']
      by_cases hname : k = name <;> simp [hname]
    · simp only [if_neg hn]
      exact ih

/-- A `_mark_explored` call never clears any player's explored flag. -/
theorem exploredIn_markExploredFor_mono (hgt wdt : Nat)
    (ex : List (String × List (List Bool))) (name n : String)
    (pos : Int × Int) (r c : Nat) (h : exploredIn ex n r c = true) :
    exploredIn (markExploredFor hgt wdt ex name pos) n r c = true := by
  unfold exploredIn at *
  rw [lookupAssoc_markExploredFor]
  cases hl : Portal.lookupAssoc ex n with
  | none => rw [hl] at h; simp at h
  | some m =>
    rw [hl] at h
    simp only [Option.map_some']
    split
    · exact maskAt_markExplored_mono _ _ _ _ _ _ h
    · exact h

/-- A successful `_update_state_through_action` changes the explored masks
exactly by one `_mark_explored` pass for the acting player. -/
theorem portal_update_explored (e : PEnv) (p d : String) (e2 : PEnv)
    (h : updateThroughAction e p d = Except.ok e2) :
    ∃ pos,
      e2.explored = markExploredFor e.height e.width e.explored p pos := by
  unfold updateThroughAction at h
  repeat' first
    | split at h
    | dsimp only at h
  all_goals first
    | exact Except.noConfusion h
    | (injection h with h2; subst h2; exact ⟨_, rfl⟩)

/-- Every successful `_update_state_through_action` leaves
`state.aborted = False` (both its branches write `False`). -/
theorem portal_update_aborted_false (e : PEnv) (p d : String) (e2 : PEnv)
    (h : updateThroughAction e p d = Except.ok e2) :
    e2.state.aborted = false := by
  unfold updateThroughAction at h
  repeat' first
    | split at h
    | dsimp only at h
  all_goals first
    | exact Except.noConfusion h
    | (injection h with h2; subst h2; rfl)

/-- A successful portal `reset` starts with
`aborted = False, success = False`. -/
theorem portal_reset_flags (e : PEnv) (cfg : PConfig) (e2 : PEnv)
    (h : portalReset e cfg = Except.ok e2) :
    e2.state.aborted = false ∧ e2.state.success = false := by
  unfold portalReset at h
  repeat' first
    | split at h
    | dsimp only at h
  all_goals first
    | exact Except.noConfusion h
    | (injection h with h2; subst h2; exact ⟨rfl, rfl⟩)

/-- C3: at the concrete environment `c3Env` the eastward move is valid, the
destination cell contains the portal, and yet
`_update_state_through_action` yields
`terminated = false, success = true, aborted = false` — not the claimed
`terminated = true` win, because the win probe inspects the destination's
top object, which is the player marker just appended on top of the
portal. -/
theorem C3_valid_move_onto_portal_does_not_terminate :
    isActionValidInState c3Env "Player 1" "e" = Except.ok (true, "") ∧
    (pyIdx2 c3Env.state.grid 0 1).map
      (fun cell => cell.contains PObj.portal) = some true ∧
    (updateThroughAction c3Env "Player 1" "e").map
      (fun e => (e.state.terminated, e.state.success, e.state.aborted)) =
      Except.ok (false, true, false) := by
  refine ⟨by decide, by decide, by decide⟩

/-- C4: at the concrete environment `c4Env` the eastward move onto the
switch is valid, and yet after `_update_state_through_action` the switch is
still deactivated and the door still closed — the interaction branch never
fires, because it inspects the destination's top object, which is the
player marker just appended on top of the switch. -/
theorem C4_valid_move_onto_switch_toggles_nothing :
    isActionValidInState c4Env "Player 1" "e" = Except.ok (true, "") ∧
    (updateThroughAction c4Env "Player 1" "e").map
      (fun e => (pyIdx2 e.state.grid 0 1, pyIdx2 e.state.grid 0 2)) =
      Except.ok
        (some [PObj.switch false, PObj.playerObj "Player 1"],
         some [PObj.door false]) := by
  refine ⟨by decide, by decide⟩

/-- A `_validate_greeting` call never leaves `aborted` and `success` both
true: the reject branch writes `(true, false)`, the accept branch writes
`aborted = false`. -/
theorem hello_validate_not_both (s : Hello.HelloState) (g : List Char) :
    ¬ ((Hello.validate_greeting s g).aborted = true ∧
       (Hello.validate_greeting s g).success = true) := by
  unfold Hello.validate_greeting
  split
  · simp
  · simp

/-- Every `check_game_state` result has `aborted = False` (the flag is
unconditionally reset and no branch writes it again). -/
theorem ttt_check_aborted (s : TTT.TState) :
    (TTT.check_game_state s).aborted = false := by
  unfold TTT.check_game_state
  dsimp only
  repeat' split
  all_goals rfl

/-- The tic-tac-toe update ends in the `check_game_state` flags, so
`aborted = False`. -/
theorem ttt_update_aborted (e : TTT.TEnv) (r c : Nat) :
    (TTT.updateThroughAction e r c).state.aborted = false :=
  ttt_check_aborted _

/-- C7: in every reachable state of the hello, portal, and tic-tac-toe
environments (after `reset` and any sequence of validation/update calls),
`state.aborted` and `state.success` are never both true. -/
theorem C7_aborted_success_mutually_exclusive :
    (∀ e, Hello.HelloReach e →
      ¬ (e.state.aborted = true ∧ e.state.success = true)) ∧
    (∀ e, PortalReach e →
      ¬ (e.state.aborted = true ∧ e.state.success = true)) ∧
    (∀ e, TTT.TttReach e →
      ¬ (e.state.aborted = true ∧ e.state.success = true)) := by
  refine ⟨?_, ?_, ?_⟩
  · intro e h
    induction h with
    | reset cfg => simp [Hello.helloReset]
    | validate e g hr ih => exact hello_validate_not_both e.state g
    | step e a r e2 hr hstep ih =>
      unfold Hello.helloStep at hstep
      split at hstep
      · simp only [Except.ok.injEq, Prod.mk.injEq] at hstep
        obtain ⟨-, he⟩ := hstep
        subst he
        exact ih
      · simp only [Except.ok.injEq, Prod.mk.injEq] at hstep
        obtain ⟨-, he⟩ := hstep
        subst he
        exact hello_validate_not_both _ _
  · intro e h
    induction h with
    | reset e0 cfg e2 hres =>
      intro hc
      rw [(portal_reset_flags e0 cfg e2 hres).1] at hc
      exact absurd hc.1 (by simp)
    | update e0 p d e2 hr hup ih =>
      intro hc
      rw [portal_update_aborted_false e0 p d e2 hup] at hc
      exact absurd hc.1 (by simp)
  · intro e h
    induction h with
    | reset => simp [TTT.tttReset, TTT.initializeGrid]
    | update e0 row col hr ih =>
      intro hc
      rw [ttt_update_aborted e0 row col] at hc
      exact absurd hc.1 (by simp)

/-- C7 witness: the invariant applied to the state reached by the hello
game's `reset` with the default configuration. -/
theorem C7_witness :
    ¬ ((Hello.helloReset {}).state.aborted = true ∧
       (Hello.helloReset {}).state.success = true) :=
  C7_aborted_success_mutually_exclusive.1 _ (Hello.HelloReach.reset {})

/-- C8: along any sequence of in-episode operations (`_mark_explored`
calls and successful `_update_state_through_action` calls), a cell once
explored for a player stays explored for that player. -/
theorem C8_explored_monotone (e1 e2 : PEnv) (hev : PortalEvolve e1 e2)
    (name : String) (r c : Nat) (h : exploredAt e1 name r c = true) :
    exploredAt e2 name r c = true := by
  induction hev with
  | refl => exact h
  | tail eb ec hab hop ih =>
    cases hop with
    | mark pname pos =>
      exact exploredIn_markExploredFor_mono _ _ _ _ _ _ _ _ ih
    | update p d hup =>
      rename_i hupdate
      obtain ⟨pos, hexp⟩ := portal_update_explored _ p d _ hupdate
      unfold exploredAt
      rw [hexp]
      exact exploredIn_markExploredFor_mono _ _ _ _ _ _ _ _ ih

/-- C8 witness: monotonicity applied to the concrete environment `c8Env`
(cell `(0, 0)` explored) across one `_mark_explored` operation. -/
theorem C8_witness :
    exploredAt
      { c8Env with
          explored :=
            markExploredFor c8Env.height c8Env.width c8Env.explored
              "Player 1" (0, 0) }
      "Player 1" 0 0 = true :=
  C8_explored_monotone c8Env _
    (PortalEvolve.tail _ _ _ (PortalEvolve.refl c8Env)
      (PortalOp.mark c8Env "Player 1" (0, 0)))
    "Player 1" 0 0 (by decide)

end PortalTheorems

section TicTacToeTheorems

open TTT

set_option maxRecDepth 4096 in
/-- C6: after placing X, O, X, O, X alternately from `reset` so that the
fifth move completes the top row with X, the game-over check reports a win:
the top row reads all X, `terminated = true` and `success = true` (a draw
would have set `success = false`). -/
theorem C6_tictactoe_top_row_win :
    rowAll (boardFromGrid c6Final.state.grid) 0 symX = true ∧
    c6Final.state.terminated = true ∧
    c6Final.state.success = true := by
  refine ⟨by decide, by decide, by decide⟩

end TicTacToeTheorems

section GameMasterTheorems

open GM

/-- C9: for a non-empty player list of length `n` and current index `i`,
`_next_player` sets `current_player_idx` to `(i + 1) % n` and returns the
player at that index in add order, and `_start_next_round` afterwards
returns true exactly when the index has wrapped back to 0 (the first
player). -/
theorem C9_next_player_round_robin (players : List String) (i : Nat)
    (h : players ≠ []) :
    ∃ hlt : (i + 1) % players.length < players.length,
      nextPlayer ⟨players, i⟩ =
        Except.ok (⟨players, (i + 1) % players.length⟩,
          players.get ⟨(i + 1) % players.length, hlt⟩) ∧
      (startNextRound ⟨players, (i + 1) % players.length⟩ = true ↔
        (i + 1) % players.length = 0) := by
  have hpos : 0 < players.length := List.length_pos.mpr h
  refine ⟨Nat.mod_lt _ hpos, ?_, ?_⟩
  · have hget : players.getD ((i + 1) % players.length) "" =
        players.get ⟨(i + 1) % players.length, Nat.mod_lt _ hpos⟩ := by
      rw [List.getD_eq_getElem?_getD,
        List.getElem?_eq_getElem (Nat.mod_lt _ hpos)]
      simp [List.get_eq_getElem]
    unfold nextPlayer
    rw [if_neg (by simp [List.isEmpty_iff, h])]
    show Except.ok (_, players.getD ((i + 1) % players.length) "") = _
    rw [hget]
  · unfold startNextRound
    simp

/-- C9 witness: advancing from index 2 of a three-player list wraps to
index 0, returns the first player, and starts a new round. -/
theorem C9_witness :
    nextPlayer ⟨["a", "b", "c"], 2⟩ =
      Except.ok (⟨["a", "b", "c"], 0⟩, "a") ∧
    startNextRound ⟨["a", "b", "c"], 0⟩ = true := by
  obtain ⟨hlt, h1, h2⟩ :=
    C9_next_player_round_robin ["a", "b", "c"] 2 (by decide)
  exact ⟨h1, h2.mpr rfl⟩

end GameMasterTheorems

section SudokuTheorems

open Sudoku

/-- On every non-degenerate square board, `_is_grid_solved` is `False`: an
incomplete board fails the completeness check, and on a complete board the
very first cell probe `_is_grid_valid(grid, 0, 0, grid[0][0])` rejects
because that cell is non-zero. -/
theorem sudoku_solved_always_false (n : Nat) (g : List (List Nat))
    (hn : 1 ≤ n) (hlen : g.length = n) (hrows : ∀ r ∈ g, r.length = n) :
    is_grid_solved n g = false := by
  unfold is_grid_solved
  split
  · rfl
  · rename_i hcomp
    rw [not_not] at hcomp
    cases g with
    | nil => simp at hlen; omega
    | cons r0 rest =>
      have hr0 : r0.contains 0 = false := by
        have := List.all_eq_true.mp hcomp r0 (List.mem_cons_self r0 rest)
        simpa using this
      have hr0len : r0.length = n :=
        hrows r0 (List.mem_cons_self r0 rest)
      cases r0 with
      | nil => simp at hr0len; omega
      | cons v r0rest =>
        have hv : v ≠ 0 := by
          intro hv0
          subst hv0
          simp at hr0
        have hget2 : get2 ((v :: r0rest) :: rest) 0 0 = v := by
          unfold get2
          rfl
        rw [List.all_eq_false]
        refine ⟨0, by simp; omega, ?_⟩
        rw [Bool.not_eq_true, List.all_eq_false]
        refine ⟨0, by simp; omega, ?_⟩
        unfold is_grid_valid
        rw [hget2]
        rw [if_pos hv]
        simp

/-- The extracted board is always square of side `grid_size`, so the update
always takes the unsolved branch. -/
theorem sudoku_update_never_succeeds (e : SEnv) (row col value : Nat)
    (he : 1 ≤ e.grid_size) :
    (Sudoku.updateThroughAction e row col value).success = false ∧
    (Sudoku.updateThroughAction e row col value).terminated = false := by
  have hshape : ∀ (g : SGrid),
      is_grid_solved e.grid_size (boardFromGrid e.grid_size g) = false := by
    intro g
    apply sudoku_solved_always_false _ _ he
    · simp [boardFromGrid]
    · intro r hr
      simp only [boardFromGrid, List.mem_map] at hr
      obtain ⟨i, _, rfl⟩ := hr
      simp
  constructor <;>
  · simp only [Sudoku.updateThroughAction]
    split <;> (rw [hshape]; simp)

/-- C10: `_is_grid_solved` returns `False` for every possible board (an
incomplete board fails the completeness check; a complete one fails because
`_is_grid_valid` rejects any already-filled inspected cell), and
consequently `_update_state_through_action` never sets `state.success` or
`state.terminated` to true. -/
theorem C10_sudoku_never_solved (n : Nat) (g : List (List Nat)) (e : SEnv)
    (row col value : Nat)
    (hn : 1 ≤ n) (hlen : g.length = n) (hrows : ∀ r ∈ g, r.length = n)
    (he : 1 ≤ e.grid_size) :
    is_grid_solved n g = false ∧
    (Sudoku.updateThroughAction e row col value).success = false ∧
    (Sudoku.updateThroughAction e row col value).terminated = false :=
  ⟨sudoku_solved_always_false n g hn hlen hrows,
    (sudoku_update_never_succeeds e row col value he).1,
    (sudoku_update_never_succeeds e row col value he).2⟩

/-- C10 witness: the theorem applied to the complete, internally consistent
1 × 1 board `[[3]]` and to the concrete environment `c10Env` receiving a
fill action. -/
theorem C10_witness :
    is_grid_solved 1 [[3]] = false ∧
    (Sudoku.updateThroughAction c10Env 0 0 3).success = false ∧
    (Sudoku.updateThroughAction c10Env 0 0 3).terminated = false :=
  C10_sudoku_never_solved 1 [[3]] c10Env 0 0 3 (by decide) (by decide)
    (by decide) (by decide)

end SudokuTheorems
